import Mathlib

/-!
Shallow embedding of the OneDrive object-storage gateway of GroupTaskSync
(`src/server/storage.ts`, second `OneDriveStorageManager` copy, the one
imported by the route layer) together with the upload/egress slice of the
route layer, and proofs of the spec's claims about them.

Network effects are modelled by a static fault oracle (`Faults`) plus an
explicit remote-drive state (`RemoteState`); every gateway operation also
returns the list of observable operations it performed (`OpEvent`), which
lets us count Credential Broker calls and placement decisions.
-/

set_option maxHeartbeats 1000000

namespace GroupTaskSync

/-- One configured backing account (`OneDriveConfig.accounts` element in
`storage.ts`). -/
structure OneDriveAccount where
  name : String
  refreshToken : String
  userId : String
  deriving Repr, DecidableEq

/-- `OneDriveConfig` from `storage.ts`: client credentials plus the ordered
account list. -/
structure OneDriveConfig where
  clientId : String
  clientSecret : String
  tenantId : String
  accounts : List OneDriveAccount
  deriving Repr, DecidableEq

/-- The mutable state of `OneDriveStorageManager`: the single round-robin
placement cursor `currentAccountIndex` (initialised to 0 in the source). -/
structure ManagerState where
  currentAccountIndex : Nat
  deriving Repr, DecidableEq

/-- The remote drive of one account: the set of folder paths that exist and
an association list from item id to stored bytes (most recent binding
first, matching `@microsoft.graph.conflictBehavior: replace`). -/
structure DriveState where
  folders : List String
  objects : List (String × List Nat)
  deriving Repr, DecidableEq

/-- The remote world: one drive per account index.  The access token obtained
for account `i` authenticates requests against drive `i`. -/
def RemoteState : Type := Nat → DriveState

/-- Replace the drive at one account index. -/
def updateDrive (r : RemoteState) (i : Nat) (d : DriveState) : RemoteState :=
  fun j => if j = i then d else r j

/-- Static fault-injection oracle for the network calls made by the gateway.
Each flag says whether the corresponding remote request is rejected; within
one logical upload each account is attempted at most once, so per-account
flags suffice. -/
structure Faults where
  /-- the OAuth refresh-token exchange for account `i` is rejected -/
  tokenFail : Nat → Bool
  /-- the folder-existence GET for (account, path) fails at the network
  level even when the folder exists -/
  checkFail : Nat → String → Bool
  /-- the folder-create POST for (account, path) fails -/
  createFail : Nat → String → Bool
  /-- the content PUT for account `i` fails -/
  putFail : Nat → Bool
  /-- the `/me/drive` quota GET for account `i` fails -/
  quotaFail : Nat → Bool
  /-- the content GET for account `i` fails -/
  getFail : Nat → Bool

/-- Observable operations performed against the outside world. -/
inductive OpEvent where
  /-- `getNextAccount` returned `i` (a placement decision) -/
  | select (i : Nat)
  /-- a token-exchange request for account `i` was sent to the identity
  provider (one Credential Broker call) -/
  | brokerCall (i : Nat)
  /-- folder-existence GET on account `i` -/
  | folderCheck (i : Nat) (path : String)
  /-- folder-create POST on account `i` -/
  | folderCreate (i : Nat) (path : String)
  /-- content PUT on account `i` -/
  | putObject (i : Nat)
  /-- content GET on account `i` -/
  | getObject (i : Nat) (itemId : String)
  /-- quota GET on account `i` -/
  | quotaQuery (i : Nat)
  deriving Repr, DecidableEq

/-- Errors thrown by the gateway (JS exceptions, modelled as values). -/
inductive GError where
  /-- JS `TypeError` from reading `.refreshToken` of `undefined` when the
  account index is out of range -/
  | typeError
  /-- `Authentication failed for OneDrive account …` -/
  | authFailed (name : String)
  /-- an axios request rejected (network/provider error) -/
  | httpError
  /-- content GET answered 404 (item not stored) -/
  | notFound
  /-- `All OneDrive accounts failed to upload image` -/
  | allAccountsFailed
  deriving Repr, DecidableEq

/-- The opaque reference returned by a successful upload
(`{ url, accountUsed, itemId, accountIndex }` in `storage.ts`). -/
structure UploadResult where
  url : String
  accountUsed : String
  itemId : String
  accountIndex : Nat
  deriving Repr, DecidableEq

/-- `getAccessToken(accountIndex)`: reads
`this.config.accounts[accountIndex]` (a JS `TypeError` before any network
call when the index is out of range), then performs the refresh-token
exchange, converting a rejection into the `Authentication failed …` error.
The returned token is opaque; downstream operations are indexed by the
account the token authenticates. -/
def getAccessToken (cfg : OneDriveConfig) (flt : Faults) (i : Nat) :
    Except GError String × List OpEvent :=
  match cfg.accounts.get? i with
  | none => (.error .typeError, [])
  | some account =>
      if flt.tokenFail i then
        (.error (.authFailed account.name), [.brokerCall i])
      else
        (.ok ("access-token-" ++ toString i), [.brokerCall i])

/-- `getNextAccount()`: returns the current cursor, then advances it modulo
the account count.  (For an empty account list the source's JS computes
`NaN`; Lean's `% 0` keeps the cursor — all theorems below assume at least
one configured account.) -/
def getNextAccount (cfg : OneDriveConfig) (st : ManagerState) :
    Nat × ManagerState × List OpEvent :=
  (st.currentAccountIndex,
   ⟨(st.currentAccountIndex + 1) % cfg.accounts.length⟩,
   [.select st.currentAccountIndex])

/-- `ensureFolderExists(accessToken, folderPath)` on the drive of account
`i`: GET the folder (the catch fires when the folder is missing or the
request itself fails), and in the catch create it with
`@microsoft.graph.conflictBehavior: replace`, so an already-existing folder
is never an error.  The parent-path/folder-name split in the source only
shapes the request URL and is not semantically modelled. -/
def ensureFolderExists (flt : Faults) (i : Nat) (folderPath : String)
    (drive : DriveState) : Except GError Unit × DriveState × List OpEvent :=
  if flt.checkFail i folderPath = false ∧ folderPath ∈ drive.folders then
    (.ok (), drive, [.folderCheck i folderPath])
  else
    if flt.createFail i folderPath then
      (.error .httpError, drive,
       [.folderCheck i folderPath, .folderCreate i folderPath])
    else
      (.ok (), { drive with folders := drive.folders.insert folderPath },
       [.folderCheck i folderPath, .folderCreate i folderPath])

/-- The item id the provider assigns to the file uploaded under `filename`
(path-addressed PUT: stable per path). -/
def itemIdFor (filename : String) : String := "item:" ++ filename

/-- The content PUT of `uploadImage`: store the bytes on account `i`'s drive
under the item id for `filename` (replace semantics via shadowing in the
association list), or fail when the request is faulted. -/
def putObjectContent (flt : Faults) (i : Nat) (filename : String)
    (bytes : List Nat) (drive : DriveState) :
    Except GError String × DriveState × List OpEvent :=
  if flt.putFail i then
    (.error .httpError, drive, [.putObject i])
  else
    (.ok (itemIdFor filename),
     { drive with objects := (itemIdFor filename, bytes) :: drive.objects },
     [.putObject i])

/-- The body of `uploadImage`'s `try` block for account `i`: fresh token,
provision `TaskShare` then `TaskShare/images`, then PUT the bytes.  Any
step's failure aborts the attempt, keeping the remote side effects already
performed. -/
def attemptUpload (cfg : OneDriveConfig) (flt : Faults) (i : Nat)
    (filename : String) (bytes : List Nat) (drive : DriveState) :
    Except GError String × DriveState × List OpEvent :=
  match getAccessToken cfg flt i with
  | (.error e, ev0) => (.error e, drive, ev0)
  | (.ok _tok, ev0) =>
      match ensureFolderExists flt i "TaskShare" drive with
      | (.error e, d1, ev1) => (.error e, d1, ev0 ++ ev1)
      | (.ok _, d1, ev1) =>
          match ensureFolderExists flt i "TaskShare/images" d1 with
          | (.error e, d2, ev2) => (.error e, d2, ev0 ++ ev1 ++ ev2)
          | (.ok _, d2, ev2) =>
              match putObjectContent flt i filename bytes d2 with
              | (.error e, d3, ev3) => (.error e, d3, ev0 ++ ev1 ++ ev2 ++ ev3)
              | (.ok itemId, d3, ev3) => (.ok itemId, d3, ev0 ++ ev1 ++ ev2 ++ ev3)

/-- The name of account `i`, `""` when the index is out of range (the
source only reads names at in-range indices). -/
def accountNameAt (cfg : OneDriveConfig) (i : Nat) : String :=
  ((cfg.accounts.get? i).map OneDriveAccount.name).getD ""

/-- `uploadImage(fileBuffer, filename, mimeType)`: pick the next account by
round robin, attempt the upload there, and on any failure retry via
self-recursion — but only while `accountIndex < accounts.length - 1`
(the source's guard); otherwise throw
`All OneDrive accounts failed to upload image`. -/
def uploadImage (cfg : OneDriveConfig) (flt : Faults) (filename : String)
    (bytes : List Nat) (remote : RemoteState) (st : ManagerState) :
    Except GError UploadResult × RemoteState × ManagerState × List OpEvent :=
  let accountIndex := (getNextAccount cfg st).1
  let st1 := (getNextAccount cfg st).2.1
  let ev0 := (getNextAccount cfg st).2.2
  match attemptUpload cfg flt accountIndex filename bytes (remote accountIndex) with
  | (.ok itemId, drive1, ev1) =>
      (.ok { url := "/api/onedrive/image/" ++ toString accountIndex ++ "/" ++ itemId,
             accountUsed := accountNameAt cfg accountIndex,
             itemId := itemId,
             accountIndex := accountIndex },
       updateDrive remote accountIndex drive1, st1, ev0 ++ ev1)
  | (.error _, drive1, ev1) =>
      if _hlt : accountIndex < cfg.accounts.length - 1 then
        let rec_result := uploadImage cfg flt filename bytes
          (updateDrive remote accountIndex drive1) st1
        (rec_result.1, rec_result.2.1, rec_result.2.2.1, ev0 ++ ev1 ++ rec_result.2.2.2)
      else
        (.error .allAccountsFailed, updateDrive remote accountIndex drive1, st1, ev0 ++ ev1)
termination_by cfg.accounts.length - st.currentAccountIndex
decreasing_by
  have ha : (getNextAccount cfg st).1 = st.currentAccountIndex := rfl
  have hs : (getNextAccount cfg st).2.1.currentAccountIndex
      = (st.currentAccountIndex + 1) % cfg.accounts.length := rfl
  have h2 : st.currentAccountIndex + 1 < cfg.accounts.length := by omega
  rw [Nat.mod_eq_of_lt h2] at hs
  omega

/-- `downloadImage(accountIndex, itemId)`: fresh token for the referenced
account, then GET the item's content from that account's drive.  A missing
item is the provider's 404 (axios throws).  The manager state is returned
unchanged — the method never touches `currentAccountIndex`. -/
def downloadImage (cfg : OneDriveConfig) (flt : Faults) (remote : RemoteState)
    (st : ManagerState) (i : Nat) (itemId : String) :
    Except GError (List Nat) × ManagerState × List OpEvent :=
  match getAccessToken cfg flt i with
  | (.error e, ev0) => (.error e, st, ev0)
  | (.ok _tok, ev0) =>
      if flt.getFail i then
        (.error .httpError, st, ev0 ++ [.getObject i itemId])
      else
        match (remote i).objects.lookup itemId with
        | some bytes => (.ok bytes, st, ev0 ++ [.getObject i itemId])
        | none => (.error .notFound, st, ev0 ++ [.getObject i itemId])

/-- One row of `getStorageInfo`'s result. -/
structure StorageEntry where
  account : String
  used : String
  total : String
  deriving Repr, DecidableEq

/-- One iteration of `getStorageInfo`'s loop: token then quota GET inside a
`try`, pushing the account's `Error` marker row in the `catch`.
`quota i` is the provider's `(used, total)` pair for account `i` and `fmt`
stands for `formatBytes` (whose floating-point arithmetic is not modelled —
no claim depends on the formatted digits). -/
def storageEntry (cfg : OneDriveConfig) (flt : Faults)
    (quota : Nat → Nat × Nat) (fmt : Nat → String) (i : Nat) :
    StorageEntry × List OpEvent :=
  match getAccessToken cfg flt i with
  | (.error _, ev0) =>
      ({ account := accountNameAt cfg i, used := "Error", total := "Error" }, ev0)
  | (.ok _tok, ev0) =>
      if flt.quotaFail i then
        ({ account := accountNameAt cfg i, used := "Error", total := "Error" },
         ev0 ++ [.quotaQuery i])
      else
        ({ account := accountNameAt cfg i,
           used := fmt (quota i).1, total := fmt (quota i).2 },
         ev0 ++ [.quotaQuery i])

/-- The `for (let i = 0; …)` loop of `getStorageInfo`, processing `n`
accounts starting at index `i` and pushing one entry each. -/
def storageInfoGo (cfg : OneDriveConfig) (flt : Faults)
    (quota : Nat → Nat × Nat) (fmt : Nat → String) (i : Nat) :
    Nat → List StorageEntry × List OpEvent
  | 0 => ([], [])
  | n + 1 =>
      let e := storageEntry cfg flt quota fmt i
      let rest := storageInfoGo cfg flt quota fmt (i + 1) n
      (e.1 :: rest.1, e.2 ++ rest.2)

/-- `getStorageInfo()`: one entry per configured account, in configuration
order; the manager state is returned unchanged — the method never touches
`currentAccountIndex`. -/
def getStorageInfo (cfg : OneDriveConfig) (flt : Faults)
    (quota : Nat → Nat × Nat) (fmt : Nat → String) (st : ManagerState) :
    List StorageEntry × ManagerState × List OpEvent :=
  let r := storageInfoGo cfg flt quota fmt 0 cfg.accounts.length
  (r.1, st, r.2)

/-- Placement decisions recorded in a trace. -/
def selectsOf (evs : List OpEvent) : List Nat :=
  evs.filterMap fun e => match e with | .select i => some i | _ => none

/-- Credential Broker calls recorded in a trace. -/
def brokersOf (evs : List OpEvent) : List Nat :=
  evs.filterMap fun e => match e with | .brokerCall i => some i | _ => none

/-! ## Route layer (`registerRoutes`, the upload/egress slice) -/

/-- One multipart file as multer hands it to the route handler.  `filename`
is set by multer's disk-storage engine only; the memory-storage engine
(used whenever the OneDrive manager is configured) leaves it undefined,
modelled as `none`. -/
structure UploadedFile where
  originalname : String
  mimetype : String
  buffer : List Nat
  filename : Option String
  deriving Repr, DecidableEq

/-- `limits.fileSize` of the multer configuration: `10 * 1024 * 1024`. -/
def maxFileSize : Nat := 10 * 1024 * 1024

/-- Does `pat` occur as a contiguous substring of `s`?  (Strings are
handled as their character lists so that everything computes.) -/
def charsContain (s pat : List Char) : Bool :=
  pat.isPrefixOf s ||
    match s with
    | [] => false
    | _ :: t => charsContain t pat

/-- `allowedTypes.test s` for the regex `/jpeg|jpg|png|gif|webp/`: does one
of the five alternatives occur as a substring of `s`? -/
def regexTest (s : List Char) : Bool :=
  charsContain s "jpeg".toList || charsContain s "jpg".toList ||
  charsContain s "png".toList || charsContain s "gif".toList ||
  charsContain s "webp".toList

/-- The suffix of the character list starting at its last `.`, `none`
when there is no dot. -/
def lastDotSuffix : List Char → Option (List Char)
  | [] => none
  | c :: t =>
      match lastDotSuffix t with
      | some r => some r
      | none => if c = '.' then some (c :: t) else none

/-- `path.extname`: the name's suffix from its last dot, empty when the
name has no dot (Node's special cases for dotfiles and trailing dots are
not needed by any claim and are not modelled). -/
def extnameOf (s : String) : List Char :=
  (lastDotSuffix s.toList).getD []

/-- The `fileFilter` of the multer configuration: extension (lower-cased)
and MIME type must both match the image-type regex. -/
def fileTypeAllowed (f : UploadedFile) : Bool :=
  regexTest ((extnameOf f.originalname).map Char.toLower) &&
  regexTest f.mimetype.toList

/-- Verdict of the multer middleware on one incoming file. -/
inductive MulterVerdict where
  | accepted
  | payloadTooLarge
  | unsupportedMediaType
  deriving Repr, DecidableEq

/-- Modelled from the spec: multer's enforcement of `limits.fileSize` is
library code, not part of this repository — only its configuration
(`10 * 1024 * 1024` and the `fileFilter`) is.  Per the spec, input
exceeding the configured maximum blob size is rejected with
`PayloadTooLarge` before any network call is attempted, a blob of exactly
the maximum size is not rejected by the size check, and anything failing
the image-type allow-list is rejected (`Only image files are allowed`). -/
def multerVerdict (f : UploadedFile) : MulterVerdict :=
  if f.buffer.length > maxFileSize then .payloadTooLarge
  else if fileTypeAllowed f then .accepted
  else .unsupportedMediaType

/-- Response sent by the `POST /api/tasks` handler, reduced to what the
claims observe: the created task's image locator on success, or an error
response (the outer `catch` maps a thrown `Error` to status 400). -/
inductive RouteResponse where
  | okTask (image : Option String)
  | badRequest (msg : String)
  deriving Repr, DecidableEq

/-- The `POST /api/tasks` route: multer middleware, then the handler's
image branch, then task creation.  Besides the response it returns the
list of files written to the local uploads directory during handling, the
remote state, the manager state and the event trace.

`mintedName` stands for the `Date.now() + random` name minted inside the
handler and `diskName` for the one minted by multer's disk-storage engine.

In the configured-gateway catch branch the source builds the fallback
locator from `file.filename` — which the memory-storage engine never sets
(JS interpolates `undefined`) — and writes nothing to disk.  In the
unconfigured branch multer's disk engine has already stored the blob under
`diskName` and the handler writes `file.buffer` again under `mintedName`
(that this branch reads `buffer`, which the disk engine does not populate,
is outside every claim and not modelled further). -/
def postTasksRoute (gateway : Option OneDriveConfig) (flt : Faults)
    (remote : RemoteState) (st : ManagerState) (file : Option UploadedFile)
    (mintedName diskName : String) :
    RouteResponse × List (String × List Nat) × RemoteState × ManagerState × List OpEvent :=
  match file with
  | none => (.okTask none, [], remote, st, [])
  | some f =>
      match multerVerdict f with
      | .payloadTooLarge => (.badRequest "File too large", [], remote, st, [])
      | .unsupportedMediaType => (.badRequest "Only image files are allowed", [], remote, st, [])
      | .accepted =>
          match gateway with
          | some cfg =>
              match uploadImage cfg flt mintedName f.buffer remote st with
              | (.ok r, remote1, st1, ev) => (.okTask (some r.url), [], remote1, st1, ev)
              | (.error _, remote1, st1, ev) =>
                  (.okTask (some ("/uploads/" ++ (f.filename.getD "undefined"))),
                   [], remote1, st1, ev)
          | none =>
              (.okTask (some ("/uploads/" ++ mintedName)),
               [("/uploads/" ++ diskName, f.buffer), ("/uploads/" ++ mintedName, f.buffer)],
               remote, st, [])

/-- Response of the OneDrive image proxy route, `GET
/api/onedrive/image/:accountIndex/:itemId`. -/
inductive ProxyResponse where
  | okBytes (bytes : List Nat) (contentType : String)
  | notFound (msg : String)
  deriving Repr, DecidableEq

/-- The image proxy route: its whole body sits in a `try` whose `catch`
answers 404 `Image not found`, so every exception thrown during
resolution — the unguarded account indexing in `getAccessToken`
included — becomes a NotFound response rather than a crash. -/
def onedriveImageRoute (gateway : Option OneDriveConfig) (flt : Faults)
    (remote : RemoteState) (st : ManagerState) (accountIndex : Nat)
    (itemId : String) : ProxyResponse × ManagerState :=
  match gateway with
  | none => (.notFound "OneDrive not configured", st)
  | some cfg =>
      match downloadImage cfg flt remote st accountIndex itemId with
      | (.ok bytes, st1, _) => (.okBytes bytes "image/jpeg", st1)
      | (.error _, st1, _) => (.notFound "Image not found", st1)

/-! ## Helper lemmas about the embedding -/

theorem updateDrive_self (r : RemoteState) (i : Nat) (d : DriveState) :
    updateDrive r i d i = d := by
  simp [updateDrive]

theorem updateDrive_ne (r : RemoteState) (i : Nat) (d : DriveState) {j : Nat}
    (h : j ≠ i) : updateDrive r i d j = r j := by
  simp [updateDrive, h]

theorem selectsOf_append (l₁ l₂ : List OpEvent) :
    selectsOf (l₁ ++ l₂) = selectsOf l₁ ++ selectsOf l₂ := by
  simp [selectsOf]

theorem brokersOf_append (l₁ l₂ : List OpEvent) :
    brokersOf (l₁ ++ l₂) = brokersOf l₁ ++ brokersOf l₂ := by
  simp [brokersOf]

theorem selectsOf_getAccessToken (cfg : OneDriveConfig) (flt : Faults) (i : Nat) :
    selectsOf (getAccessToken cfg flt i).2 = [] := by
  unfold getAccessToken
  rcases cfg.accounts.get? i with _ | a <;> simp [selectsOf]
  split <;> simp

theorem brokersOf_getAccessToken (cfg : OneDriveConfig) (flt : Faults) {i : Nat}
    (h : i < cfg.accounts.length) :
    brokersOf (getAccessToken cfg flt i).2 = [i] := by
  unfold getAccessToken
  rcases hg : cfg.accounts.get? i with _ | a
  · rw [List.get?_eq_none] at hg
    omega
  · simp only []
    split <;> simp [brokersOf]

theorem selectsOf_ensureFolderExists (flt : Faults) (i : Nat) (p : String)
    (d : DriveState) : selectsOf (ensureFolderExists flt i p d).2.2 = [] := by
  unfold ensureFolderExists
  split
  · simp [selectsOf]
  · split <;> simp [selectsOf]

theorem brokersOf_ensureFolderExists (flt : Faults) (i : Nat) (p : String)
    (d : DriveState) : brokersOf (ensureFolderExists flt i p d).2.2 = [] := by
  unfold ensureFolderExists
  split
  · simp [brokersOf]
  · split <;> simp [brokersOf]

theorem selectsOf_putObjectContent (flt : Faults) (i : Nat) (fn : String)
    (bs : List Nat) (d : DriveState) :
    selectsOf (putObjectContent flt i fn bs d).2.2 = [] := by
  unfold putObjectContent
  split <;> simp [selectsOf]

theorem brokersOf_putObjectContent (flt : Faults) (i : Nat) (fn : String)
    (bs : List Nat) (d : DriveState) :
    brokersOf (putObjectContent flt i fn bs d).2.2 = [] := by
  unfold putObjectContent
  split <;> simp [brokersOf]

theorem selectsOf_attemptUpload (cfg : OneDriveConfig) (flt : Faults) (i : Nat)
    (fn : String) (bs : List Nat) (d : DriveState) :
    selectsOf (attemptUpload cfg flt i fn bs d).2.2 = [] := by
  unfold attemptUpload
  rcases h0 : getAccessToken cfg flt i with ⟨e0 | t0, ev0⟩
  · have := selectsOf_getAccessToken cfg flt i
    rw [h0] at this
    simpa using this
  · have hev0 := selectsOf_getAccessToken cfg flt i
    rw [h0] at hev0
    rcases h1 : ensureFolderExists flt i "TaskShare" d with ⟨e1 | u1, d1, ev1⟩ <;>
      [skip; rcases h2 : ensureFolderExists flt i "TaskShare/images" d1 with ⟨e2 | u2, d2, ev2⟩] <;>
      [skip; skip;
       rcases h3 : putObjectContent flt i fn bs d2 with ⟨e3 | v3, d3, ev3⟩]
    all_goals {
      first
      | (have hev1 := selectsOf_ensureFolderExists flt i "TaskShare" d
         rw [h1] at hev1
         try (have hev2 := selectsOf_ensureFolderExists flt i "TaskShare/images" d1
              rw [h2] at hev2)
         try (have hev3 := selectsOf_putObjectContent flt i fn bs d2
              rw [h3] at hev3)
         simp_all [selectsOf_append])
    }

theorem brokersOf_attemptUpload (cfg : OneDriveConfig) (flt : Faults) {i : Nat}
    (hi : i < cfg.accounts.length) (fn : String) (bs : List Nat) (d : DriveState) :
    brokersOf (attemptUpload cfg flt i fn bs d).2.2 = [i] := by
  unfold attemptUpload
  rcases h0 : getAccessToken cfg flt i with ⟨e0 | t0, ev0⟩
  · have := brokersOf_getAccessToken cfg flt hi
    rw [h0] at this
    simpa using this
  · have hev0 := brokersOf_getAccessToken cfg flt hi
    rw [h0] at hev0
    rcases h1 : ensureFolderExists flt i "TaskShare" d with ⟨e1 | u1, d1, ev1⟩ <;>
      [skip; rcases h2 : ensureFolderExists flt i "TaskShare/images" d1 with ⟨e2 | u2, d2, ev2⟩] <;>
      [skip; skip;
       rcases h3 : putObjectContent flt i fn bs d2 with ⟨e3 | v3, d3, ev3⟩]
    all_goals {
      first
      | (have hev1 := brokersOf_ensureFolderExists flt i "TaskShare" d
         rw [h1] at hev1
         try (have hev2 := brokersOf_ensureFolderExists flt i "TaskShare/images" d1
              rw [h2] at hev2)
         try (have hev3 := brokersOf_putObjectContent flt i fn bs d2
              rw [h3] at hev3)
         simp_all [brokersOf_append])
    }

/-- Inverting a successful attempt: the account index was in range, its
token exchange and content PUT were not faulted, the returned item id is
the one minted for the filename, and the resulting drive resolves that
item id to the uploaded bytes. -/
theorem attemptUpload_ok_inv (cfg : OneDriveConfig) (flt : Faults) (i : Nat)
    (fn : String) (bs : List Nat) (d : DriveState) {v : String} {d' : DriveState}
    {evs : List OpEvent}
    (h : attemptUpload cfg flt i fn bs d = (Except.ok v, d', evs)) :
    (cfg.accounts.get? i).isSome = true ∧ flt.tokenFail i = false ∧
    flt.putFail i = false ∧ v = itemIdFor fn ∧
    d'.objects.lookup (itemIdFor fn) = some bs := by
  unfold attemptUpload at h
  rcases h0 : getAccessToken cfg flt i with ⟨e0 | t0, ev0⟩ <;> rw [h0] at h <;>
    simp only [] at h
  · simp at h
  · have hrange : (cfg.accounts.get? i).isSome = true ∧ flt.tokenFail i = false := by
      unfold getAccessToken at h0
      rcases hg : cfg.accounts.get? i with _ | a <;> rw [hg] at h0
      · simp at h0
      · by_cases ht : flt.tokenFail i <;> simp [ht] at h0 <;> simp [ht]
    rcases h1 : ensureFolderExists flt i "TaskShare" d with ⟨e1 | u1, d1, ev1⟩ <;>
      rw [h1] at h <;> simp only [] at h
    · simp at h
    rcases h2 : ensureFolderExists flt i "TaskShare/images" d1 with ⟨e2 | u2, d2, ev2⟩ <;>
      rw [h2] at h <;> simp only [] at h
    · simp at h
    rcases h3 : putObjectContent flt i fn bs d2 with ⟨e3 | v3, d3, ev3⟩ <;>
      rw [h3] at h <;> simp only [] at h
    · simp at h
    simp only [Prod.mk.injEq, Except.ok.injEq] at h
    obtain ⟨hv, hd, -⟩ := h
    have hput : flt.putFail i = false ∧ v3 = itemIdFor fn ∧
        d3.objects.lookup (itemIdFor fn) = some bs := by
      unfold putObjectContent at h3
      by_cases hp : flt.putFail i <;> simp [hp] at h3
      obtain ⟨hv3, hd3, -⟩ := h3
      refine ⟨by simp [hp], hv3.symm, ?_⟩
      rw [← hd3]
      simp [List.lookup]
    exact ⟨hrange.1, hrange.2, hput.1, by rw [← hv]; exact hput.2.1,
           by rw [← hd]; exact hput.2.2⟩

end GroupTaskSync

namespace GroupTaskSync

/-- Unfolding `uploadImage` when the first attempt succeeds: the result is
returned immediately, with the proxy URL naming the attempted account. -/
theorem uploadImage_step_ok (cfg : OneDriveConfig) (flt : Faults) (fn : String)
    (bs : List Nat) (remote : RemoteState) (c : Nat) {v : String} {d1 : DriveState}
    {ev1 : List OpEvent}
    (hatt : attemptUpload cfg flt c fn bs (remote c) = (Except.ok v, d1, ev1)) :
    uploadImage cfg flt fn bs remote ⟨c⟩ =
      (Except.ok { url := "/api/onedrive/image/" ++ toString c ++ "/" ++ v,
                   accountUsed := accountNameAt cfg c, itemId := v, accountIndex := c },
       updateDrive remote c d1, ⟨(c + 1) % cfg.accounts.length⟩,
       OpEvent.select c :: ev1) := by
  rw [uploadImage]
  simp only [getNextAccount]
  rw [hatt]
  simp

/-- Unfolding `uploadImage` when the attempt fails and the source's guard
`accountIndex < accounts.length - 1` holds: recurse with the advanced
cursor. -/
theorem uploadImage_step_err_retry (cfg : OneDriveConfig) (flt : Faults)
    (fn : String) (bs : List Nat) (remote : RemoteState) (c : Nat) {e : GError}
    {d1 : DriveState} {ev1 : List OpEvent}
    (hatt : attemptUpload cfg flt c fn bs (remote c) = (Except.error e, d1, ev1))
    (hlt : c < cfg.accounts.length - 1) :
    uploadImage cfg flt fn bs remote ⟨c⟩ =
      (let R := uploadImage cfg flt fn bs (updateDrive remote c d1)
         ⟨(c + 1) % cfg.accounts.length⟩
       (R.1, R.2.1, R.2.2.1, OpEvent.select c :: (ev1 ++ R.2.2.2))) := by
  rw [uploadImage]
  simp only [getNextAccount]
  rw [hatt]
  simp [hlt]

/-- Unfolding `uploadImage` when the attempt fails and the guard does not
hold: throw `All OneDrive accounts failed to upload image`. -/
theorem uploadImage_step_err_stop (cfg : OneDriveConfig) (flt : Faults)
    (fn : String) (bs : List Nat) (remote : RemoteState) (c : Nat) {e : GError}
    {d1 : DriveState} {ev1 : List OpEvent}
    (hatt : attemptUpload cfg flt c fn bs (remote c) = (Except.error e, d1, ev1))
    (hge : ¬ c < cfg.accounts.length - 1) :
    uploadImage cfg flt fn bs remote ⟨c⟩ =
      (Except.error GError.allAccountsFailed, updateDrive remote c d1,
       ⟨(c + 1) % cfg.accounts.length⟩, OpEvent.select c :: ev1) := by
  rw [uploadImage]
  simp only [getNextAccount]
  rw [hatt]
  simp [hge]

end GroupTaskSync

namespace GroupTaskSync

/-- Full characterisation of one logical upload starting at cursor
`c < accounts.length`: some number `n ≥ 1` of attempts is made on the
consecutive accounts `c, c+1, …, c+n-1` (never past the last index), each
attempted account receives exactly one placement decision and one
Credential Broker call, the cursor ends at `(c+n) % length`, every attempt
before the last fails, and the final result is either the last attempt's
success — with the minted item id resolvable to the uploaded bytes on that
account's final drive — or `allAccountsFailed` after the guard stopped the
recursion at the last index. -/
theorem uploadImage_run (cfg : OneDriveConfig) (flt : Faults) (fn : String)
    (bs : List Nat) (remote : RemoteState) (c : Nat)
    (hc : c < cfg.accounts.length) :
    ∃ n, 1 ≤ n ∧ c + n ≤ cfg.accounts.length ∧
      selectsOf (uploadImage cfg flt fn bs remote ⟨c⟩).2.2.2 = List.range' c n ∧
      brokersOf (uploadImage cfg flt fn bs remote ⟨c⟩).2.2.2 = List.range' c n ∧
      ((uploadImage cfg flt fn bs remote ⟨c⟩).2.2.1).currentAccountIndex
        = (c + n) % cfg.accounts.length ∧
      (∀ j, c ≤ j → j + 1 < c + n →
        ∃ e d₂ ev₂, attemptUpload cfg flt j fn bs (remote j) = (Except.error e, d₂, ev₂)) ∧
      (∀ r, (uploadImage cfg flt fn bs remote ⟨c⟩).1 = Except.ok r →
        r.accountIndex = c + n - 1 ∧ r.itemId = itemIdFor fn ∧
        flt.tokenFail (c + n - 1) = false ∧
        (∃ d₃ ev₃, attemptUpload cfg flt (c + n - 1) fn bs (remote (c + n - 1))
            = (Except.ok (itemIdFor fn), d₃, ev₃)) ∧
        ((uploadImage cfg flt fn bs remote ⟨c⟩).2.1 (c + n - 1)).objects.lookup
            (itemIdFor fn) = some bs) ∧
      ((∃ e, (uploadImage cfg flt fn bs remote ⟨c⟩).1 = Except.error e) →
        (uploadImage cfg flt fn bs remote ⟨c⟩).1 = Except.error GError.allAccountsFailed ∧
        c + n = cfg.accounts.length ∧
        (∀ j, c ≤ j → j < cfg.accounts.length →
          ∃ e d₂ ev₂, attemptUpload cfg flt j fn bs (remote j) = (Except.error e, d₂, ev₂))) := by
  rcases hatt : attemptUpload cfg flt c fn bs (remote c) with ⟨res, d1, ev1⟩
  have hselev1 : selectsOf ev1 = [] := by
    have := selectsOf_attemptUpload cfg flt c fn bs (remote c)
    rw [hatt] at this
    simpa using this
  have hbrokev1 : brokersOf ev1 = [c] := by
    have := brokersOf_attemptUpload cfg flt hc fn bs (remote c)
    rw [hatt] at this
    simpa using this
  rcases res with e | v
  · by_cases hlt : c < cfg.accounts.length - 1
    · -- failed attempt, guard holds: recurse at cursor c+1
      have hrw := uploadImage_step_err_retry cfg flt fn bs remote c hatt hlt
      have hmod : (c + 1) % cfg.accounts.length = c + 1 := Nat.mod_eq_of_lt (by omega)
      rw [hmod] at hrw
      have hc1 : c + 1 < cfg.accounts.length := by omega
      obtain ⟨n, hn1, hnK, hsel, hbrok, hcur, hfailpre, hok, herr⟩ :=
        uploadImage_run cfg flt fn bs (updateDrive remote c d1) (c + 1) hc1
      refine ⟨n + 1, by omega, by omega, ?_, ?_, ?_, ?_, ?_, ?_⟩
      · rw [hrw]
        simp only [selectsOf, List.filterMap_cons, List.filterMap_append]
        simp only [selectsOf] at hselev1 hsel
        rw [hselev1, hsel]
        simp [List.range']
      · rw [hrw]
        simp only [brokersOf, List.filterMap_cons, List.filterMap_append]
        simp only [brokersOf] at hbrokev1 hbrok
        rw [hbrokev1, hbrok]
        simp [List.range']
      · rw [hrw]
        simpa [Nat.add_assoc, Nat.add_comm 1 n] using hcur
      · intro j hcj hj
        rcases Nat.eq_or_lt_of_le hcj with hj0 | hj1
        · exact ⟨e, d1, ev1, hj0 ▸ hatt⟩
        · have := hfailpre j hj1 (by omega)
          rwa [updateDrive_ne remote c d1 (by omega)] at this
      · intro r hr
        rw [hrw] at hr
        have := hok r hr
        have heq : c + 1 + n - 1 = c + (n + 1) - 1 := by omega
        rw [hrw]
        refine ⟨by omega, this.2.1, ?_, ?_, ?_⟩
        · have h2 := this.2.2.1
          rwa [heq] at h2
        · obtain ⟨d₃, ev₃, hat⟩ := this.2.2.2.1
          rw [updateDrive_ne remote c d1 (show c + 1 + n - 1 ≠ c by omega)] at hat
          rw [heq] at hat
          exact ⟨d₃, ev₃, hat⟩
        · have h2 := this.2.2.2.2
          rwa [heq] at h2
      · intro hre
        rw [hrw] at hre ⊢
        have := herr hre
        refine ⟨this.1, by omega, ?_⟩
        intro j hcj hjK
        rcases Nat.eq_or_lt_of_le hcj with hj0 | hj1
        · exact ⟨e, d1, ev1, hj0 ▸ hatt⟩
        · have := this.2.2 j hj1 hjK
          rwa [updateDrive_ne remote c d1 (by omega)] at this
    · -- failed attempt at the last index: the recursion stops
      have hrw := uploadImage_step_err_stop cfg flt fn bs remote c hatt hlt
      have hcK : c + 1 = cfg.accounts.length := by omega
      refine ⟨1, Nat.le_refl 1, by omega, ?_, ?_, ?_, ?_, ?_, ?_⟩
      · rw [hrw]
        simp only [selectsOf, List.filterMap_cons]
        simp only [selectsOf] at hselev1
        rw [hselev1]
        simp [List.range']
      · rw [hrw]
        simp only [brokersOf, List.filterMap_cons]
        simp only [brokersOf] at hbrokev1
        rw [hbrokev1]
        simp [List.range']
      · rw [hrw]
      · intro j hcj hj
        omega
      · intro r hr
        rw [hrw] at hr
        simp at hr
      · intro _
        rw [hrw]
        refine ⟨rfl, hcK, ?_⟩
        intro j hcj hjK
        have : j = c := by omega
        exact ⟨e, d1, ev1, this ▸ hatt⟩
  · -- successful attempt: return immediately
    have hrw := uploadImage_step_ok cfg flt fn bs remote c hatt
    have hinv := attemptUpload_ok_inv cfg flt c fn bs (remote c) hatt
    refine ⟨1, Nat.le_refl 1, by omega, ?_, ?_, ?_, ?_, ?_, ?_⟩
    · rw [hrw]
      simp only [selectsOf, List.filterMap_cons]
      simp only [selectsOf] at hselev1
      rw [hselev1]
      simp [List.range']
    · rw [hrw]
      simp only [brokersOf, List.filterMap_cons]
      simp only [brokersOf] at hbrokev1
      rw [hbrokev1]
      simp [List.range']
    · rw [hrw]
    · intro j hcj hj
      omega
    · intro r hr
      rw [hrw] at hr
      simp at hr
      rw [hrw]
      refine ⟨?_, ?_, ?_, ?_, ?_⟩
      · rw [← hr]
        simp
      · rw [← hr]
        exact hinv.2.2.2.1
      · simpa using hinv.2.1
      · simp only [Nat.add_sub_cancel]
        exact ⟨d1, ev1, by rw [← hinv.2.2.2.1]; exact hatt⟩
      · simp only [Nat.add_sub_cancel]
        rw [updateDrive_self]
        exact hinv.2.2.2.2
    · intro hre
      rw [hrw] at hre
      simp at hre
termination_by cfg.accounts.length - c
decreasing_by omega

end GroupTaskSync

namespace GroupTaskSync

/-- Upload environment with no injected faults on the write path: token
exchange, folder creation and content PUT all succeed (the folder
existence check may still miss, falling through to the idempotent
create). -/
def NoUploadFaults (flt : Faults) : Prop :=
  (∀ i, flt.tokenFail i = false) ∧ (∀ i p, flt.createFail i p = false) ∧
  (∀ i, flt.putFail i = false)

theorem attemptUpload_ok_of_noFaults (cfg : OneDriveConfig) {flt : Faults}
    (hnf : NoUploadFaults flt) {i : Nat} (hi : i < cfg.accounts.length)
    (fn : String) (bs : List Nat) (d : DriveState) :
    (attemptUpload cfg flt i fn bs d).1 = Except.ok (itemIdFor fn) := by
  obtain ⟨ht, hcr, hp⟩ := hnf
  unfold attemptUpload
  rcases hg : getAccessToken cfg flt i with ⟨e0 | t0, ev0⟩
  · exfalso
    unfold getAccessToken at hg
    rcases hgg : cfg.accounts.get? i with _ | a <;> rw [hgg] at hg
    · rw [List.get?_eq_none] at hgg
      omega
    · simp [ht i] at hg
  · have hens : ∀ p d', ∃ d'' ev,
        ensureFolderExists flt i p d' = (Except.ok (), d'', ev) := by
      intro p d'
      unfold ensureFolderExists
      split
      · exact ⟨_, _, rfl⟩
      · rw [if_neg (by simp [hcr i p])]
        exact ⟨_, _, rfl⟩
    obtain ⟨dA, evA, hA⟩ := hens "TaskShare" d
    simp only []
    rw [hA]
    obtain ⟨dB, evB, hB⟩ := hens "TaskShare/images" dA
    simp only []
    rw [hB]
    unfold putObjectContent
    simp [hp i]

/-- Under `NoUploadFaults`, one logical upload from cursor `c` lands on
account `c` and advances the cursor once. -/
theorem uploadImage_noFaults_spec (cfg : OneDriveConfig) {flt : Faults}
    (fn : String) (bs : List Nat) (remote : RemoteState) {c : Nat}
    (hnf : NoUploadFaults flt) (hc : c < cfg.accounts.length) :
    (∃ r, (uploadImage cfg flt fn bs remote ⟨c⟩).1 = Except.ok r ∧
      r.accountIndex = c) ∧
    (uploadImage cfg flt fn bs remote ⟨c⟩).2.2.1
      = ⟨(c + 1) % cfg.accounts.length⟩ := by
  obtain ⟨n, hn1, hnK, hsel, hbrok, hcur, hfailpre, hok, herr⟩ :=
    uploadImage_run cfg flt fn bs remote c hc
  have hn : n = 1 := by
    by_contra hne
    obtain ⟨e, d2, ev2, hfail⟩ := hfailpre c (Nat.le_refl c) (by omega)
    have hok2 := attemptUpload_ok_of_noFaults cfg hnf hc fn bs (remote c)
    rw [hfail] at hok2
    simp at hok2
  subst hn
  have hstate : (uploadImage cfg flt fn bs remote ⟨c⟩).2.2.1
      = ⟨(c + 1) % cfg.accounts.length⟩ := by
    have hη : (uploadImage cfg flt fn bs remote ⟨c⟩).2.2.1
        = ⟨((uploadImage cfg flt fn bs remote ⟨c⟩).2.2.1).currentAccountIndex⟩ := rfl
    rw [hη, hcur]
  refine ⟨?_, hstate⟩
  rcases hres : (uploadImage cfg flt fn bs remote ⟨c⟩).1 with e | r
  · obtain ⟨-, -, hfa⟩ := herr ⟨e, hres⟩
    obtain ⟨e', d2, ev2, hf⟩ := hfa c (Nat.le_refl c) hc
    have hok2 := attemptUpload_ok_of_noFaults cfg hnf hc fn bs (remote c)
    rw [hf] at hok2
    simp at hok2
  · have := hok r hres
    exact ⟨r, rfl, by omega⟩

/-- `n` sequential logical uploads of the same payload, threading remote
and manager state from one to the next. -/
def uploadSeq (cfg : OneDriveConfig) (flt : Faults) (fn : String)
    (bs : List Nat) :
    Nat → RemoteState → ManagerState →
      List (Except GError UploadResult) × RemoteState × ManagerState
  | 0, remote, st => ([], remote, st)
  | n + 1, remote, st =>
      let r := uploadImage cfg flt fn bs remote st
      let rest := uploadSeq cfg flt fn bs n r.2.1 r.2.2.1
      (r.1 :: rest.1, rest.2.1, rest.2.2)

/-- The account index each upload of a sequence landed on (`none` for a
failed upload). -/
def chosenAccounts (l : List (Except GError UploadResult)) : List (Option Nat) :=
  l.map fun e => match e with
    | .ok r => some r.accountIndex
    | .error _ => none

theorem uploadSeq_roundRobin (cfg : OneDriveConfig) {flt : Faults}
    (fn : String) (bs : List Nat) (hnf : NoUploadFaults flt) :
    ∀ (n : Nat) (remote : RemoteState) (c : Nat), c < cfg.accounts.length →
      chosenAccounts (uploadSeq cfg flt fn bs n remote ⟨c⟩).1
        = (List.range n).map (fun i => some ((c + i) % cfg.accounts.length)) := by
  intro n
  induction n with
  | zero => intro remote c hc; simp [uploadSeq, chosenAccounts]
  | succ n ih =>
      intro remote c hc
      obtain ⟨⟨r, hres, hacc⟩, hst⟩ :=
        uploadImage_noFaults_spec cfg fn bs remote hnf hc
      have hKpos : 0 < cfg.accounts.length := by omega
      have hc' : (c + 1) % cfg.accounts.length < cfg.accounts.length :=
        Nat.mod_lt _ hKpos
      unfold uploadSeq
      simp only [chosenAccounts, List.map_cons]
      rw [hres]
      rw [hst]
      have ihx := ih (uploadImage cfg flt fn bs remote ⟨c⟩).2.1
        ((c + 1) % cfg.accounts.length) hc'
      simp only [chosenAccounts] at ihx
      rw [ihx]
      rw [List.range_succ_eq_map]
      simp only [List.map_cons, List.map_map]
      rw [List.cons_eq_cons]
      refine ⟨by rw [hacc]; simp [Nat.mod_eq_of_lt hc], ?_⟩
      apply List.map_congr_left
      intro i hi
      simp only [Function.comp_apply, Nat.succ_eq_add_one, Nat.mod_add_mod]
      have harith : c + 1 + i = c + (i + 1) := by omega
      rw [harith]

end GroupTaskSync

namespace GroupTaskSync

/-! ## Concrete fixtures for scenario checks -/

def testAccount (n : String) : OneDriveAccount :=
  { name := n, refreshToken := "secret-" ++ n, userId := "user-" ++ n }

def testConfig (names : List String) : OneDriveConfig :=
  { clientId := "client", clientSecret := "secret", tenantId := "tenant",
    accounts := names.map testAccount }

def faultFree : Faults :=
  { tokenFail := fun _ => false, checkFail := fun _ _ => false,
    createFail := fun _ _ => false, putFail := fun _ => false,
    quotaFail := fun _ => false, getFail := fun _ => false }

/-- Faults making exactly the accounts listed fail their token exchange. -/
def tokenFaultsOn (l : List Nat) : Faults :=
  { faultFree with tokenFail := fun i => l.contains i }

def emptyRemote : RemoteState := fun _ => { folders := [], objects := [] }

theorem faultFree_noUploadFaults : NoUploadFaults faultFree :=
  ⟨fun _ => rfl, fun _ _ => rfl, fun _ => rfl⟩

/-! ## Claim theorems -/

/-- **C3.**  For every sequence of `N` uploads through `Store`
(`uploadImage`) with `K ≥ 1` configured accounts in which every attempt
succeeds, the account chosen for the `i`-th upload is
`(initial cursor + i) mod K`; in particular, with 3 configured accounts
and the cursor starting at 0, four sequential successful uploads use the
accounts in order `[0, 1, 2, 0]`. -/
theorem store_places_round_robin :
    (∀ (cfg : OneDriveConfig) (flt : Faults) (fn : String) (bs : List Nat)
        (n : Nat) (remote : RemoteState) (c : Nat),
      NoUploadFaults flt → c < cfg.accounts.length →
      chosenAccounts (uploadSeq cfg flt fn bs n remote ⟨c⟩).1
        = (List.range n).map (fun i => some ((c + i) % cfg.accounts.length))) ∧
    chosenAccounts
        (uploadSeq (testConfig ["A", "B", "C"]) faultFree "img.png" [7]
          4 emptyRemote ⟨0⟩).1
      = [some 0, some 1, some 2, some 0] := by
  have hgen : ∀ (cfg : OneDriveConfig) (flt : Faults) (fn : String)
      (bs : List Nat) (n : Nat) (remote : RemoteState) (c : Nat),
      NoUploadFaults flt → c < cfg.accounts.length →
      chosenAccounts (uploadSeq cfg flt fn bs n remote ⟨c⟩).1
        = (List.range n).map (fun i => some ((c + i) % cfg.accounts.length)) :=
    fun cfg flt fn bs n remote c hnf hc =>
      uploadSeq_roundRobin cfg fn bs hnf n remote c hc
  refine ⟨hgen, ?_⟩
  rw [hgen (testConfig ["A", "B", "C"]) faultFree "img.png" [7] 4 emptyRemote 0
    faultFree_noUploadFaults (by simp [testConfig])]
  decide

/-- Closed instance of [store_places_round_robin]: two accounts, cursor
starting at 1 after a prior upload, three fault-free uploads land on
accounts 1, 0, 1. -/
theorem store_places_round_robin_witness :
    NoUploadFaults faultFree ∧ 1 < (testConfig ["A", "B"]).accounts.length ∧
    chosenAccounts
        (uploadSeq (testConfig ["A", "B"]) faultFree "f.png" [1] 3 emptyRemote ⟨1⟩).1
      = [some 1, some 0, some 1] :=
  ⟨faultFree_noUploadFaults, by simp [testConfig],
   (store_places_round_robin.1 (testConfig ["A", "B"]) faultFree "f.png" [1] 3
      emptyRemote 1 faultFree_noUploadFaults (by simp [testConfig])).trans
     (by decide)⟩

end GroupTaskSync

namespace GroupTaskSync

/-- **C4.**  `Store` (`uploadImage`) terminates on every input: within one
logical upload it makes at most one placement decision and at most one
Credential Broker call per configured account (the broker-call list equals
the duplicate-free placement list), makes at most `N` attempts for `N`
configured accounts, and with exactly one configured account the first
failure surfaces immediately as the storage-level failure after a single
attempt, without a self-retry against the same account. -/
theorem store_attempts_bounded (cfg : OneDriveConfig) (flt : Faults)
    (fn : String) (bs : List Nat) (remote : RemoteState) (c : Nat)
    (hc : c < cfg.accounts.length) :
    (selectsOf (uploadImage cfg flt fn bs remote ⟨c⟩).2.2.2).Nodup ∧
    (selectsOf (uploadImage cfg flt fn bs remote ⟨c⟩).2.2.2).length
      ≤ cfg.accounts.length ∧
    brokersOf (uploadImage cfg flt fn bs remote ⟨c⟩).2.2.2
      = selectsOf (uploadImage cfg flt fn bs remote ⟨c⟩).2.2.2 ∧
    (∀ i, (brokersOf (uploadImage cfg flt fn bs remote ⟨c⟩).2.2.2).count i ≤ 1) ∧
    (cfg.accounts.length = 1 →
      (∀ v d' ev', attemptUpload cfg flt 0 fn bs (remote 0) ≠ (Except.ok v, d', ev')) →
      (uploadImage cfg flt fn bs remote ⟨0⟩).1 = Except.error GError.allAccountsFailed ∧
      selectsOf (uploadImage cfg flt fn bs remote ⟨0⟩).2.2.2 = [0]) := by
  obtain ⟨n, hn1, hnK, hsel, hbrok, hcur, hfailpre, hok, herr⟩ :=
    uploadImage_run cfg flt fn bs remote c hc
  refine ⟨?_, ?_, ?_, ?_, ?_⟩
  · rw [hsel]
    exact List.nodup_range' _ _
  · rw [hsel, List.length_range']
    omega
  · rw [hsel, hbrok]
  · intro i
    rw [hbrok]
    exact List.nodup_iff_count_le_one.mp (List.nodup_range' _ _) i
  · intro hK1 hnotok
    obtain ⟨m, hm1, hmK, hsel0, hbrok0, hcur0, hfailpre0, hok0, herr0⟩ :=
      uploadImage_run cfg flt fn bs remote 0 (by omega)
    have hm : m = 1 := by omega
    subst hm
    rcases hres : (uploadImage cfg flt fn bs remote ⟨0⟩).1 with e | r
    · obtain ⟨hall, -, -⟩ := herr0 ⟨e, hres⟩
      refine ⟨?_, by rw [hsel0]; decide⟩
      rw [← hres]
      exact hall
    · obtain ⟨-, -, -, hex, -⟩ := hok0 r hres
      obtain ⟨d₃, ev₃, hat⟩ := hex
      simp only [Nat.add_sub_cancel] at hat
      exact absurd hat (hnotok (itemIdFor fn) d₃ ev₃)

/-- Closed instance of [store_attempts_bounded]: one configured account
whose token exchange is rejected — the upload fails as
`allAccountsFailed` after exactly one placement decision. -/
theorem store_attempts_bounded_witness :
    0 < (testConfig ["A"]).accounts.length ∧
    (uploadImage (testConfig ["A"]) (tokenFaultsOn [0]) "f.png" [1] emptyRemote ⟨0⟩).1
      = Except.error GError.allAccountsFailed ∧
    selectsOf (uploadImage (testConfig ["A"]) (tokenFaultsOn [0]) "f.png" [1]
      emptyRemote ⟨0⟩).2.2.2 = [0] := by
  have hnotok : ∀ v d' ev',
      attemptUpload (testConfig ["A"]) (tokenFaultsOn [0]) 0 "f.png" [1] (emptyRemote 0)
        ≠ (Except.ok v, d', ev') := by
    intro v d' ev' h
    have h1 : (attemptUpload (testConfig ["A"]) (tokenFaultsOn [0]) 0 "f.png" [1]
        (emptyRemote 0)).1 = Except.ok v := by rw [h]
    rw [show (attemptUpload (testConfig ["A"]) (tokenFaultsOn [0]) 0 "f.png" [1]
        (emptyRemote 0)).1 = Except.error (GError.authFailed "A") from rfl] at h1
    exact Except.noConfusion h1
  have h := store_attempts_bounded (testConfig ["A"]) (tokenFaultsOn [0]) "f.png" [1]
    emptyRemote 0 (by simp [testConfig])
  exact ⟨by simp [testConfig], (h.2.2.2.2 (by simp [testConfig]) hnotok).1,
         (h.2.2.2.2 (by simp [testConfig]) hnotok).2⟩

end GroupTaskSync

namespace GroupTaskSync

/-- **C2** (counter-evidence).  With two configured accounts and the
round-robin cursor at 1 — its value after one successful upload — a
failure of account 1 makes `uploadImage` throw `All OneDrive accounts
failed to upload image` immediately: account 0, untried for this logical
request and perfectly healthy (its attempt would succeed, last conjunct),
is never selected and its Credential Broker is never called, because the
retry guard compares the absolute account index with
`accounts.length - 1` instead of tracking untried accounts. -/
theorem store_gives_up_with_account_untried :
    (uploadImage (testConfig ["A", "B"]) (tokenFaultsOn [1]) "f.png" [1]
      emptyRemote ⟨1⟩).1 = Except.error GError.allAccountsFailed ∧
    selectsOf (uploadImage (testConfig ["A", "B"]) (tokenFaultsOn [1]) "f.png" [1]
      emptyRemote ⟨1⟩).2.2.2 = [1] ∧
    brokersOf (uploadImage (testConfig ["A", "B"]) (tokenFaultsOn [1]) "f.png" [1]
      emptyRemote ⟨1⟩).2.2.2 = [1] ∧
    (attemptUpload (testConfig ["A", "B"]) (tokenFaultsOn [1]) 0 "f.png" [1]
      (emptyRemote 0)).1 = Except.ok (itemIdFor "f.png") := by
  have hatt : attemptUpload (testConfig ["A", "B"]) (tokenFaultsOn [1]) 1 "f.png" [1]
      (emptyRemote 1)
      = (Except.error (GError.authFailed "B"), emptyRemote 1,
         [OpEvent.brokerCall 1]) := rfl
  have hstop := uploadImage_step_err_stop (testConfig ["A", "B"]) (tokenFaultsOn [1])
    "f.png" [1] emptyRemote 1 hatt (by simp [testConfig])
  refine ⟨by rw [hstop], by rw [hstop]; rfl, by rw [hstop]; rfl, rfl⟩

end GroupTaskSync

namespace GroupTaskSync

/-- **C5.**  Round-trip law: for any blob successfully stored via `Store`
(`uploadImage`) returning a reference encoding `(accountIndex, itemId)`,
`Fetch` (`downloadImage`) called on the post-upload remote state with
exactly that account index and item id returns byte-identical content;
the fetch authenticates against the specified account index only (its
Credential Broker call list is exactly that one account) and never
consults or advances the round-robin placement cursor (no placement
decision in its trace, manager state returned unchanged, whatever state
it is given). -/
theorem store_fetch_round_trip (cfg : OneDriveConfig) (flt : Faults)
    (fn : String) (bs : List Nat) (remote : RemoteState) (st st₂ : ManagerState)
    (r : UploadResult)
    (hc : st.currentAccountIndex < cfg.accounts.length)
    (hok : (uploadImage cfg flt fn bs remote st).1 = Except.ok r)
    (hget : flt.getFail r.accountIndex = false) :
    (downloadImage cfg flt (uploadImage cfg flt fn bs remote st).2.1 st₂
        r.accountIndex r.itemId).1 = Except.ok bs ∧
    (downloadImage cfg flt (uploadImage cfg flt fn bs remote st).2.1 st₂
        r.accountIndex r.itemId).2.1 = st₂ ∧
    selectsOf (downloadImage cfg flt (uploadImage cfg flt fn bs remote st).2.1 st₂
        r.accountIndex r.itemId).2.2 = [] ∧
    brokersOf (downloadImage cfg flt (uploadImage cfg flt fn bs remote st).2.1 st₂
        r.accountIndex r.itemId).2.2 = [r.accountIndex] := by
  have hst : st = ⟨st.currentAccountIndex⟩ := rfl
  rw [hst] at hok ⊢
  obtain ⟨n, hn1, hnK, -, -, -, -, hokk, -⟩ :=
    uploadImage_run cfg flt fn bs remote st.currentAccountIndex hc
  obtain ⟨hacc, hitem, htok, -, hlook⟩ := hokk r hok
  have ha : r.accountIndex < cfg.accounts.length := by omega
  have htok' : flt.tokenFail r.accountIndex = false := by
    rw [hacc]
    exact htok
  have hlook' : List.lookup r.itemId
      ((uploadImage cfg flt fn bs remote ⟨st.currentAccountIndex⟩).2.1
        r.accountIndex).objects = some bs := by
    rw [hitem, hacc]
    exact hlook
  have hga : getAccessToken cfg flt r.accountIndex
      = (Except.ok ("access-token-" ++ toString r.accountIndex),
         [OpEvent.brokerCall r.accountIndex]) := by
    unfold getAccessToken
    rcases hg : cfg.accounts.get? r.accountIndex with _ | acct
    · rw [List.get?_eq_none] at hg
      omega
    · simp [htok']
  unfold downloadImage
  rw [hga]
  simp only []
  rw [hget]
  simp only [Bool.false_eq_true, if_false]
  rw [hlook']
  simp [selectsOf, brokersOf]

end GroupTaskSync

namespace GroupTaskSync

/-- Closed instance of [store_fetch_round_trip]: a blob stored fault-free
on account 0 is fetched back byte-identical through the reference's
account index and item id. -/
theorem store_fetch_round_trip_witness :
    ((⟨0⟩ : ManagerState).currentAccountIndex < (testConfig ["A", "B"]).accounts.length) ∧
    (downloadImage (testConfig ["A", "B"]) faultFree
        (uploadImage (testConfig ["A", "B"]) faultFree "f.png" [9, 8] emptyRemote ⟨0⟩).2.1
        ⟨5⟩ 0 "item:f.png").1 = Except.ok [9, 8] := by
  have hok : (uploadImage (testConfig ["A", "B"]) faultFree "f.png" [9, 8] emptyRemote ⟨0⟩).1
      = Except.ok { url := "/api/onedrive/image/0/item:f.png", accountUsed := "A",
                    itemId := "item:f.png", accountIndex := 0 } := by
    rw [uploadImage_step_ok (testConfig ["A", "B"]) faultFree "f.png" [9, 8] emptyRemote 0 rfl]
    rfl
  refine ⟨by simp [testConfig], ?_⟩
  have h := store_fetch_round_trip (testConfig ["A", "B"]) faultFree "f.png" [9, 8]
    emptyRemote ⟨0⟩ ⟨5⟩ _ (by simp [testConfig]) hok rfl
  exact h.1

end GroupTaskSync

namespace GroupTaskSync

/-- `downloadImage` never writes the manager state: the method body never
touches `currentAccountIndex`. -/
theorem downloadImage_manager_state (cfg : OneDriveConfig) (flt : Faults)
    (remote : RemoteState) (st : ManagerState) (i : Nat) (itemId : String) :
    (downloadImage cfg flt remote st i itemId).2.1 = st := by
  unfold downloadImage
  rcases h0 : getAccessToken cfg flt i with ⟨e0 | t0, ev0⟩
  · rfl
  · simp only []
    split
    · rfl
    · split <;> rfl

/-- `downloadImage` makes no placement decision. -/
theorem downloadImage_no_select (cfg : OneDriveConfig) (flt : Faults)
    (remote : RemoteState) (st : ManagerState) (i : Nat) (itemId : String) :
    selectsOf (downloadImage cfg flt remote st i itemId).2.2 = [] := by
  unfold downloadImage
  rcases h0 : getAccessToken cfg flt i with ⟨e0 | t0, ev0⟩ <;>
    have hs := selectsOf_getAccessToken cfg flt i <;> rw [h0] at hs <;>
    simp only [] at hs
  · simpa using hs
  · simp only []
    split
    · rw [selectsOf_append, hs]
      simp [selectsOf]
    · split <;> (rw [selectsOf_append, hs]; simp [selectsOf])

/-- **C6.**  Every unresolvable fetch through the image proxy route
answers NotFound rather than crashing: the whole handler body sits inside
a `try` whose `catch` answers 404, so the JS `TypeError` raised by the
unguarded `accounts[accountIndex]` indexing in `getAccessToken` when the
account index is no longer a valid index into the configured list — an
error raised before any network call, witness the empty broker-call
list — and every other resolution error are converted into the
`Image not found` response with the process state intact. -/
theorem image_proxy_unresolvable_404 (cfg : OneDriveConfig) (flt : Faults)
    (remote : RemoteState) (st : ManagerState) (i : Nat) (itemId : String) :
    (cfg.accounts.length ≤ i →
      onedriveImageRoute (some cfg) flt remote st i itemId
        = (ProxyResponse.notFound "Image not found", st) ∧
      (downloadImage cfg flt remote st i itemId).1 = Except.error GError.typeError ∧
      brokersOf (downloadImage cfg flt remote st i itemId).2.2 = []) ∧
    (∀ e, (downloadImage cfg flt remote st i itemId).1 = Except.error e →
      onedriveImageRoute (some cfg) flt remote st i itemId
        = (ProxyResponse.notFound "Image not found", st)) := by
  constructor
  · intro h
    have hnone : cfg.accounts.get? i = none := List.get?_eq_none.mpr h
    have hdl : downloadImage cfg flt remote st i itemId
        = (Except.error GError.typeError, st, []) := by
      unfold downloadImage getAccessToken
      rw [hnone]
    refine ⟨?_, by rw [hdl], by rw [hdl]; rfl⟩
    unfold onedriveImageRoute
    simp only []
    rw [hdl]
  · intro e he
    have hstate := downloadImage_manager_state cfg flt remote st i itemId
    unfold onedriveImageRoute
    simp only []
    rcases hd : downloadImage cfg flt remote st i itemId with ⟨res, st1, tr⟩
    have hres : res = Except.error e := by
      rw [hd] at he
      simpa using he
    have hst1 : st1 = st := by
      rw [hd] at hstate
      simpa using hstate
    subst hres
    subst hst1
    rfl

/-- Closed instance of [image_proxy_unresolvable_404]: account index 7 on
a single-account configuration resolves to the 404 response. -/
theorem image_proxy_unresolvable_404_witness :
    (testConfig ["A"]).accounts.length ≤ 7 ∧
    onedriveImageRoute (some (testConfig ["A"])) faultFree emptyRemote ⟨0⟩ 7 "x"
      = (ProxyResponse.notFound "Image not found", (⟨0⟩ : ManagerState)) :=
  ⟨by simp [testConfig],
   ((image_proxy_unresolvable_404 (testConfig ["A"]) faultFree emptyRemote ⟨0⟩ 7
      "x").1 (by simp [testConfig])).1⟩

end GroupTaskSync

namespace GroupTaskSync

/-- When the existence check passes (no network fault, folder present),
`ensureFolderExists` is a no-op: success, drive untouched, no create
request — only the single existence check in the trace. -/
theorem ensureFolderExists_mem_noop (flt : Faults) (i : Nat) (p : String)
    (d : DriveState) (h2 : flt.checkFail i p = false) (hmem : p ∈ d.folders) :
    ensureFolderExists flt i p d = (Except.ok (), d, [OpEvent.folderCheck i p]) := by
  unfold ensureFolderExists
  rw [if_pos ⟨h2, hmem⟩]

/-- A successful provisioning call leaves the folder present on the
drive. -/
theorem ensureFolderExists_ok_mem (flt : Faults) (i : Nat) (p : String)
    (d : DriveState) (h1 : (ensureFolderExists flt i p d).1 = Except.ok ()) :
    p ∈ ((ensureFolderExists flt i p d).2.1).folders := by
  by_cases hc : flt.checkFail i p = false ∧ p ∈ d.folders
  · unfold ensureFolderExists
    rw [if_pos hc]
    exact hc.2
  · unfold ensureFolderExists at h1 ⊢
    rw [if_neg hc] at h1 ⊢
    by_cases hcr : flt.createFail i p
    · rw [if_pos hcr] at h1
      simp at h1
    · rw [if_neg hcr]
      exact List.mem_insert_self p d.folders

/-- **C8.**  Idempotent folder provisioning: after any successful
provisioning call, running `ensureFolderExists` again on the same account
and path never raises an error — the folder already exists, so (absent a
network fault on the existence GET, which is what "the existence check
succeeds" presumes) the check succeeds and the second call performs no
create request and leaves the drive untouched: a no-op whose trace is the
single existence check. -/
theorem provisioning_idempotent (flt : Faults) (i : Nat) (p : String)
    (d : DriveState)
    (h1 : (ensureFolderExists flt i p d).1 = Except.ok ())
    (h2 : flt.checkFail i p = false) :
    ensureFolderExists flt i p (ensureFolderExists flt i p d).2.1
      = (Except.ok (), (ensureFolderExists flt i p d).2.1,
         [OpEvent.folderCheck i p]) :=
  ensureFolderExists_mem_noop flt i p _ h2
    (ensureFolderExists_ok_mem flt i p d h1)

/-- Closed instance of [provisioning_idempotent]: provisioning `TaskShare`
twice on a fresh drive — the first call creates, the second is a pure
no-op. -/
theorem provisioning_idempotent_witness :
    (ensureFolderExists faultFree 0 "TaskShare" ⟨[], []⟩).1 = Except.ok () ∧
    faultFree.checkFail 0 "TaskShare" = false ∧
    ensureFolderExists faultFree 0 "TaskShare"
        (ensureFolderExists faultFree 0 "TaskShare" ⟨[], []⟩).2.1
      = (Except.ok (), (ensureFolderExists faultFree 0 "TaskShare" ⟨[], []⟩).2.1,
         [OpEvent.folderCheck 0 "TaskShare"]) :=
  ⟨rfl, rfl, provisioning_idempotent faultFree 0 "TaskShare" ⟨[], []⟩ rfl rfl⟩

end GroupTaskSync

namespace GroupTaskSync

/-- The reporting loop pushes exactly one entry per index, in order. -/
theorem storageInfoGo_entries (cfg : OneDriveConfig) (flt : Faults)
    (quota : Nat → Nat × Nat) (fmt : Nat → String) :
    ∀ (n i : Nat), (storageInfoGo cfg flt quota fmt i n).1
      = (List.range' i n).map (fun j => (storageEntry cfg flt quota fmt j).1) := by
  intro n
  induction n with
  | zero => intro i; rfl
  | succ n ih =>
      intro i
      have hr : List.range' i (n + 1) = i :: List.range' (i + 1) n := rfl
      rw [hr]
      simp only [storageInfoGo, List.map_cons]
      rw [ih (i + 1)]

/-- One loop iteration, for an in-range account: the entry is the error
marker exactly when the token exchange or the quota query is faulted, and
the formatted quota otherwise. -/
theorem storageEntry_spec (cfg : OneDriveConfig) (flt : Faults)
    (quota : Nat → Nat × Nat) (fmt : Nat → String) {i : Nat}
    (hi : i < cfg.accounts.length) :
    (storageEntry cfg flt quota fmt i).1
      = if flt.tokenFail i || flt.quotaFail i then
          { account := accountNameAt cfg i, used := "Error", total := "Error" }
        else
          { account := accountNameAt cfg i, used := fmt (quota i).1,
            total := fmt (quota i).2 } := by
  unfold storageEntry
  rcases hg : getAccessToken cfg flt i with ⟨e0 | t0, ev0⟩
  · have htok : flt.tokenFail i = true := by
      unfold getAccessToken at hg
      rcases hgg : cfg.accounts.get? i with _ | a <;> rw [hgg] at hg
      · rw [List.get?_eq_none] at hgg
        omega
      · cases htb : flt.tokenFail i
        · rw [htb] at hg
          simp at hg
        · rfl
    simp [htok]
  · have htok : flt.tokenFail i = false := by
      unfold getAccessToken at hg
      rcases hgg : cfg.accounts.get? i with _ | a <;> rw [hgg] at hg
      · simp at hg
      · cases htb : flt.tokenFail i
        · rfl
        · rw [htb] at hg
          simp at hg
    simp only []
    by_cases hq : flt.quotaFail i
    · simp [htok, hq]
    · simp [htok, hq]

/-- **C9.**  `ReportAll` (`getStorageInfo`) returns exactly one entry per
configured account, in configuration order: entry `i` carries account
`i`'s name and is the explicit error marker (`used` and `total` both
`"Error"`) precisely when that account's token exchange or quota query
failed, and the formatted quota otherwise — so one account's failure
leaves every other account's entry untouched (each entry depends only on
its own index's faults). -/
theorem report_all_per_account (cfg : OneDriveConfig) (flt : Faults)
    (quota : Nat → Nat × Nat) (fmt : Nat → String) (st : ManagerState) :
    (getStorageInfo cfg flt quota fmt st).1
      = (List.range cfg.accounts.length).map (fun i =>
          if flt.tokenFail i || flt.quotaFail i then
            { account := accountNameAt cfg i, used := "Error", total := "Error" }
          else
            { account := accountNameAt cfg i, used := fmt (quota i).1,
              total := fmt (quota i).2 }) ∧
    ((getStorageInfo cfg flt quota fmt st).1).length = cfg.accounts.length := by
  have hmain : (getStorageInfo cfg flt quota fmt st).1
      = (List.range cfg.accounts.length).map (fun i =>
          if flt.tokenFail i || flt.quotaFail i then
            { account := accountNameAt cfg i, used := "Error", total := "Error" }
          else
            { account := accountNameAt cfg i, used := fmt (quota i).1,
              total := fmt (quota i).2 }) := by
    unfold getStorageInfo
    simp only []
    rw [List.range_eq_range']
    rw [storageInfoGo_entries]
    apply List.map_congr_left
    intro j hj
    rw [← List.range_eq_range'] at hj
    exact storageEntry_spec cfg flt quota fmt (List.mem_range.mp hj)
  exact ⟨hmain, by rw [hmain]; simp⟩

end GroupTaskSync

namespace GroupTaskSync

/-- The reporting loop never makes a placement decision. -/
theorem storageInfoGo_no_select (cfg : OneDriveConfig) (flt : Faults)
    (quota : Nat → Nat × Nat) (fmt : Nat → String) :
    ∀ (n i : Nat), selectsOf (storageInfoGo cfg flt quota fmt i n).2 = [] := by
  intro n
  induction n with
  | zero => intro i; rfl
  | succ n ih =>
      intro i
      simp only [storageInfoGo]
      rw [selectsOf_append, ih (i + 1)]
      have hse : selectsOf (storageEntry cfg flt quota fmt i).2 = [] := by
        unfold storageEntry
        rcases hg : getAccessToken cfg flt i with ⟨e0 | t0, ev0⟩ <;>
          have hs := selectsOf_getAccessToken cfg flt i <;> rw [hg] at hs <;>
          simp only [] at hs
        · simpa using hs
        · simp only []
          split <;> (rw [selectsOf_append, hs]; simp [selectsOf])
      rw [hse]
      rfl

/-- **C10.**  `downloadImage` and `getStorageInfo` leave the placement
cursor — the only mutable `OneDriveStorageManager` state — unchanged and
make no placement decision; the cursor is advanced (modulo the account
count) exactly by `getNextAccount`, and during one `uploadImage` the
number of placement decisions equals the number of Credential Broker
calls (one per attempt) and accounts exactly for the cursor's movement. -/
theorem reads_leave_cursor_unchanged (cfg : OneDriveConfig) (flt : Faults)
    (remote : RemoteState) (st : ManagerState) (i : Nat) (itemId : String)
    (quota : Nat → Nat × Nat) (fmt : Nat → String) (fn : String) (bs : List Nat)
    (hc : st.currentAccountIndex < cfg.accounts.length) :
    (downloadImage cfg flt remote st i itemId).2.1 = st ∧
    selectsOf (downloadImage cfg flt remote st i itemId).2.2 = [] ∧
    (getStorageInfo cfg flt quota fmt st).2.1 = st ∧
    selectsOf (getStorageInfo cfg flt quota fmt st).2.2 = [] ∧
    (getNextAccount cfg st).2.1.currentAccountIndex
      = (st.currentAccountIndex + 1) % cfg.accounts.length ∧
    brokersOf (uploadImage cfg flt fn bs remote st).2.2.2
      = selectsOf (uploadImage cfg flt fn bs remote st).2.2.2 ∧
    ((uploadImage cfg flt fn bs remote st).2.2.1).currentAccountIndex
      = (st.currentAccountIndex
          + (selectsOf (uploadImage cfg flt fn bs remote st).2.2.2).length)
        % cfg.accounts.length := by
  obtain ⟨n, hn1, hnK, hsel, hbrok, hcur, -, -, -⟩ :=
    uploadImage_run cfg flt fn bs remote st.currentAccountIndex hc
  refine ⟨downloadImage_manager_state cfg flt remote st i itemId,
          downloadImage_no_select cfg flt remote st i itemId,
          rfl,
          storageInfoGo_no_select cfg flt quota fmt cfg.accounts.length 0,
          rfl, ?_, ?_⟩
  · show brokersOf (uploadImage cfg flt fn bs remote ⟨st.currentAccountIndex⟩).2.2.2
      = selectsOf (uploadImage cfg flt fn bs remote ⟨st.currentAccountIndex⟩).2.2.2
    rw [hsel, hbrok]
  · show (uploadImage cfg flt fn bs remote ⟨st.currentAccountIndex⟩).2.2.1.currentAccountIndex
      = (st.currentAccountIndex
          + (selectsOf (uploadImage cfg flt fn bs remote
              ⟨st.currentAccountIndex⟩).2.2.2).length) % cfg.accounts.length
    rw [hsel, hcur, List.length_range']

/-- Closed instance of [reads_leave_cursor_unchanged] at a two-account
configuration with the cursor at 1. -/
theorem reads_leave_cursor_unchanged_witness :
    ((⟨1⟩ : ManagerState).currentAccountIndex
        < (testConfig ["A", "B"]).accounts.length) ∧
    (downloadImage (testConfig ["A", "B"]) faultFree emptyRemote ⟨1⟩ 0 "x").2.1
      = (⟨1⟩ : ManagerState) ∧
    (getStorageInfo (testConfig ["A", "B"]) faultFree (fun _ => (0, 0))
        (fun _ => "") ⟨1⟩).2.1 = (⟨1⟩ : ManagerState) :=
  ⟨by simp [testConfig],
   (reads_leave_cursor_unchanged (testConfig ["A", "B"]) faultFree emptyRemote ⟨1⟩
      0 "x" (fun _ => (0, 0)) (fun _ => "") "f.png" [1] (by simp [testConfig])).1,
   (reads_leave_cursor_unchanged (testConfig ["A", "B"]) faultFree emptyRemote ⟨1⟩
      0 "x" (fun _ => (0, 0)) (fun _ => "") "f.png" [1] (by simp [testConfig])).2.2.1⟩

end GroupTaskSync

namespace GroupTaskSync

/-- **C7.**  An upload whose blob exceeds the configured maximum size
(10 MiB) is rejected with the payload-too-large response before any
network call — the route answers 400 with remote state, manager state,
disk and event trace untouched, hence zero Credential Broker calls —
while a blob of exactly the configured maximum size is not rejected by
the size check. -/
theorem oversized_upload_rejected_before_network (gateway : Option OneDriveConfig)
    (flt : Faults) (remote : RemoteState) (st : ManagerState) (f : UploadedFile)
    (mintedName diskName : String) :
    (f.buffer.length > maxFileSize →
      postTasksRoute gateway flt remote st (some f) mintedName diskName
        = (RouteResponse.badRequest "File too large", [], remote, st, []) ∧
      brokersOf (postTasksRoute gateway flt remote st (some f)
        mintedName diskName).2.2.2.2 = []) ∧
    (f.buffer.length = maxFileSize → multerVerdict f ≠ MulterVerdict.payloadTooLarge) := by
  constructor
  · intro h
    have hv : multerVerdict f = .payloadTooLarge := by
      unfold multerVerdict
      rw [if_pos h]
    have hroute : postTasksRoute gateway flt remote st (some f) mintedName diskName
        = (RouteResponse.badRequest "File too large", [], remote, st, []) := by
      unfold postTasksRoute
      simp only []
      rw [hv]
    exact ⟨hroute, by rw [hroute]; rfl⟩
  · intro h hv
    unfold multerVerdict at hv
    rw [if_neg (by omega)] at hv
    split at hv <;> simp at hv

/-- Closed instance of [oversized_upload_rejected_before_network]: a blob
one byte over 10 MiB is refused with no events, a blob of exactly 10 MiB
passes the size check. -/
theorem oversized_upload_rejected_witness :
    (List.replicate (maxFileSize + 1) 0).length > maxFileSize ∧
    postTasksRoute (some (testConfig ["A"])) faultFree emptyRemote ⟨0⟩
        (some { originalname := "a.png", mimetype := "image/png",
                buffer := List.replicate (maxFileSize + 1) 0, filename := none })
        "m.png" "d.png"
      = (RouteResponse.badRequest "File too large", [], emptyRemote,
         (⟨0⟩ : ManagerState), []) ∧
    ({ originalname := "a.png", mimetype := "image/png",
       buffer := List.replicate maxFileSize 0,
       filename := none } : UploadedFile).buffer.length = maxFileSize ∧
    multerVerdict { originalname := "a.png", mimetype := "image/png",
                    buffer := List.replicate maxFileSize 0, filename := none }
      ≠ MulterVerdict.payloadTooLarge := by
  have hlen : (List.replicate (maxFileSize + 1) (0 : Nat)).length > maxFileSize := by
    simp
  have hlen2 : (List.replicate maxFileSize (0 : Nat)).length = maxFileSize := by
    simp
  exact ⟨hlen,
    ((oversized_upload_rejected_before_network (some (testConfig ["A"])) faultFree
        emptyRemote ⟨0⟩
        { originalname := "a.png", mimetype := "image/png",
          buffer := List.replicate (maxFileSize + 1) 0, filename := none }
        "m.png" "d.png").1 hlen).1,
    hlen2,
    (oversized_upload_rejected_before_network (some (testConfig ["A"])) faultFree
        emptyRemote ⟨0⟩
        { originalname := "a.png", mimetype := "image/png",
          buffer := List.replicate maxFileSize 0, filename := none }
        "m.png" "d.png").2 hlen2⟩

/-- **C1** (counter-evidence).  With the gateway configured (one account,
whose upload fails) the `POST /api/tasks` handler's catch branch returns a
local-path locator and the ingest still succeeds — but the locator is
`/uploads/undefined` (memory storage never sets `file.filename`) and the
list of files written to disk during handling is empty: the uploaded
blob's bytes are not written to local disk, contradicting the claimed
fallback write. -/
theorem gateway_fallback_writes_nothing :
    (postTasksRoute (some (testConfig ["A"])) (tokenFaultsOn [0]) emptyRemote ⟨0⟩
        (some { originalname := "a.png", mimetype := "image/png",
                buffer := [1, 2, 3], filename := none }) "m.png" "d.png").1
      = RouteResponse.okTask (some "/uploads/undefined") ∧
    (postTasksRoute (some (testConfig ["A"])) (tokenFaultsOn [0]) emptyRemote ⟨0⟩
        (some { originalname := "a.png", mimetype := "image/png",
                buffer := [1, 2, 3], filename := none }) "m.png" "d.png").2.1
      = [] ∧
    (uploadImage (testConfig ["A"]) (tokenFaultsOn [0]) "m.png" [1, 2, 3]
        emptyRemote ⟨0⟩).1 = Except.error GError.allAccountsFailed := by
  have hatt : attemptUpload (testConfig ["A"]) (tokenFaultsOn [0]) 0 "m.png" [1, 2, 3]
      (emptyRemote 0)
      = (Except.error (GError.authFailed "A"), emptyRemote 0,
         [OpEvent.brokerCall 0]) := rfl
  have hup := uploadImage_step_err_stop (testConfig ["A"]) (tokenFaultsOn [0])
    "m.png" [1, 2, 3] emptyRemote 0 hatt (by simp [testConfig])
  have hroute : postTasksRoute (some (testConfig ["A"])) (tokenFaultsOn [0])
      emptyRemote ⟨0⟩
      (some { originalname := "a.png", mimetype := "image/png",
              buffer := [1, 2, 3], filename := none }) "m.png" "d.png"
      = (RouteResponse.okTask (some "/uploads/undefined"), [],
         updateDrive emptyRemote 0 (emptyRemote 0),
         ⟨(0 + 1) % (testConfig ["A"]).accounts.length⟩,
         OpEvent.select 0 :: [OpEvent.brokerCall 0]) := by
    have hverdict : multerVerdict
        (⟨"a.png", "image/png", [1, 2, 3], none⟩ : UploadedFile)
        = MulterVerdict.accepted := rfl
    unfold postTasksRoute
    simp only []
    rw [hverdict]
    simp only []
    rw [hup]
    rfl
  exact ⟨by rw [hroute], by rw [hroute], by rw [hup]⟩

end GroupTaskSync
